import Mathlib

/-!
Verification of the demo-project telemetry service.

This file gives a shallow embedding of the log-batching buffer and OTLP payload
formatting of `src/lib/logger.ts`, the failure-simulation route of
`src/routes/failures.ts`, and the token accounting of the mock LLM route of
`src/routes/llm-mock.ts`, and proves the specification claims about them.

JavaScript values appearing as log fields are modelled by `JsValue`: strings,
numbers (as rationals, with `Number.isInteger` meaning denominator 1), booleans,
and a catch-all constructor carrying the result of JavaScript `String(value)`.
The asynchronous `flushLogs` is split into its synchronous first half
(`flushLogsStart`, up to the `await fetch`) and its continuation
(`flushLogsEnd`, the code after the response arrives), so that overlapping
flushes can be expressed; `flushLogs` composes the two for the non-overlapping
case.
-/

namespace Logger

/-- A JavaScript value stored in a log field.  The `other` constructor stands
for any non-string/number/boolean value and carries its `String(value)`
conversion, which is all `toOtlpValue` uses of it. -/
inductive JsValue where
  | str (s : String)
  | num (q : Rat)
  | bool (b : Bool)
  | other (stringRep : String)
deriving DecidableEq, Repr

/-- OTLP attribute value shape (`interface OtlpAttributeValue`). -/
structure OtlpAttributeValue where
  stringValue : Option String := none
  intValue : Option String := none
  doubleValue : Option Rat := none
  boolValue : Option Bool := none
deriving DecidableEq, Repr

/-- `toOtlpValue`: convert a value to OTLP attribute format. -/
def toOtlpValue : JsValue → OtlpAttributeValue
  | .str s => { stringValue := some s }
  | .num q => if q.den = 1 then { intValue := some (toString q.num) } else { doubleValue := some q }
  | .bool b => { boolValue := some b }
  | .other rep => { stringValue := some rep }

/-- An OTLP attribute: a key together with a value. -/
structure OtlpAttribute where
  key : String
  value : OtlpAttributeValue
deriving DecidableEq, Repr

/-- The keys excluded by `toOtlpAttributes` (pino base fields). -/
def baseFields : List String := ["level", "time", "pid", "hostname", "msg", "name"]

/-- `toOtlpAttributes`: convert an object (given by its `Object.entries` list)
to an OTLP attributes array, dropping the pino base fields. -/
def toOtlpAttributes (obj : List (String × JsValue)) : List OtlpAttribute :=
  (obj.filter (fun kv => kv.1 ∉ baseFields)).map (fun kv => { key := kv.1, value := toOtlpValue kv.2 })

/-- A parsed pino log entry: the typed `level`, `time`, `msg` fields plus the
remaining index-signature fields. `msg` is optional because `log.msg || ""`
guards against its absence at runtime. -/
structure LogEntry where
  level : Nat
  time : Nat
  msg : Option String
  extra : List (String × JsValue)
deriving DecidableEq, Repr

/-- The `Object.entries` view of a log entry, feeding `toOtlpAttributes`. -/
def jsEntries (log : LogEntry) : List (String × JsValue) :=
  [("level", .num (log.level : Rat)), ("time", .num (log.time : Rat))]
    ++ (match log.msg with | some s => [("msg", .str s)] | none => [])
    ++ log.extra

/-- `levelToSeverity`: map a pino level number to OTLP severity. -/
def levelToSeverity (level : Nat) : Nat × String :=
  if level ≤ 10 then (1, "TRACE")
  else if level ≤ 20 then (5, "DEBUG")
  else if level ≤ 30 then (9, "INFO")
  else if level ≤ 40 then (13, "WARN")
  else if level ≤ 50 then (17, "ERROR")
  else (21, "FATAL")

def FLUSH_INTERVAL : Nat := 5000

def MAX_BATCH_SIZE : Nat := 50

/-- OTLP instrumentation scope. -/
structure OtlpScope where
  name : String
  version : String
deriving DecidableEq, Repr

/-- One OTLP log record. -/
structure OtlpLogRecord where
  timeUnixNano : String
  observedTimeUnixNano : String
  severityNumber : Nat
  severityText : String
  body : OtlpAttributeValue
  attributes : List OtlpAttribute
deriving DecidableEq, Repr

/-- One `scopeLogs` element. -/
structure OtlpScopeLogs where
  scope : OtlpScope
  logRecords : List OtlpLogRecord
deriving DecidableEq, Repr

/-- An OTLP resource. -/
structure OtlpResource where
  attributes : List OtlpAttribute
deriving DecidableEq, Repr

/-- One `resourceLogs` element. -/
structure OtlpResourceLogs where
  resource : OtlpResource
  scopeLogs : List OtlpScopeLogs
deriving DecidableEq, Repr

/-- An OTLP `ExportLogsServiceRequest` payload. -/
structure OtlpPayload where
  resourceLogs : List OtlpResourceLogs
deriving DecidableEq, Repr

/-- The `logs.map` body of `formatOtlpPayload`: one OTLP log record per
buffered entry.  `now` is the observed time already converted to
nanoseconds. -/
def logRecordOf (now : Nat) (log : LogEntry) : OtlpLogRecord :=
  let sev := levelToSeverity log.level
  { timeUnixNano := toString (log.time * 1000000),
    observedTimeUnixNano := toString now,
    severityNumber := sev.1,
    severityText := sev.2,
    body := { stringValue := some (log.msg.getD "") },
    attributes := toOtlpAttributes (jsEntries log) }

/-- `formatOtlpPayload`: format logs as an OTLP export request.  `serviceName`
stands for `config.otel.serviceName` and `nowMs` for `Date.now()`. -/
def formatOtlpPayload (serviceName : String) (nowMs : Nat) (logs : List LogEntry) : OtlpPayload :=
  let now := nowMs * 1000000
  { resourceLogs :=
      [{ resource :=
           { attributes :=
               [{ key := "service.name", value := { stringValue := some serviceName } },
                { key := "service.version", value := { stringValue := some "0.1.0" } }] },
         scopeLogs :=
           [{ scope := { name := "pino", version := "9.6.0" },
              logRecords := logs.map (logRecordOf now) }] }] }

/-- The logger's module state, extended with history needed to speak about
behaviour: `liveTimers` counts the `setTimeout` handles currently scheduled,
`inflight` holds batches whose `fetch` has been issued but not yet resolved,
`exported` is the concatenation of batches accepted by the ingest endpoint in
arrival order, and `written` is every entry written to the OTLP destination in
order. -/
structure LoggerState where
  logBuffer : List LogEntry
  flushTimer : Option Nat
  liveTimers : Nat
  inflight : List (List LogEntry)
  exported : List LogEntry
  written : List LogEntry
deriving DecidableEq, Repr

/-- The initial module state: empty buffer, no timer. -/
def initState : LoggerState :=
  { logBuffer := [], flushTimer := none, liveTimers := 0, inflight := [], exported := [], written := [] }

/-- The synchronous first half of `flushLogs`: return if the buffer is empty,
otherwise splice the first `MAX_BATCH_SIZE` entries out of the buffer and issue
the request (the batch becomes in-flight). -/
def flushLogsStart (st : LoggerState) : LoggerState :=
  if st.logBuffer.length = 0 then st
  else
    { st with
      logBuffer := st.logBuffer.drop MAX_BATCH_SIZE,
      inflight := st.inflight ++ [st.logBuffer.take MAX_BATCH_SIZE] }

/-- The continuation of `flushLogs` once the response for the `i`-th in-flight
batch arrives: on failure (`ok = false`, a non-OK response or a thrown error)
the batch is unshifted back onto the front of the buffer when the buffer holds
fewer than 500 entries; on success it is appended to the endpoint's log. -/
def flushLogsEnd (st : LoggerState) (i : Nat) (ok : Bool) : LoggerState :=
  match st.inflight.get? i with
  | none => st
  | some batch =>
    let st1 := { st with inflight := st.inflight.eraseIdx i }
    if ok then { st1 with exported := st1.exported ++ batch }
    else if st1.logBuffer.length < 500 then { st1 with logBuffer := batch ++ st1.logBuffer }
    else st1

/-- `flushLogs` run without interleaving: start, then completion of the batch
this very call put in flight, with outcome `ok`. -/
def flushLogs (st : LoggerState) (ok : Bool) : LoggerState :=
  flushLogsEnd (flushLogsStart st) st.inflight.length ok

/-- `scheduleFlush`: create a timer (with delay `FLUSH_INTERVAL`) only when no
timer is pending. -/
def scheduleFlush (st : LoggerState) : LoggerState :=
  if st.flushTimer = none then
    { st with flushTimer := some FLUSH_INTERVAL, liveTimers := st.liveTimers + 1 }
  else st

/-- The timer callback: reset `flushTimer` to null (the handle has fired), then
run `flushLogs` up to its first await. -/
def timerFire (st : LoggerState) : LoggerState :=
  flushLogsStart { st with flushTimer := none, liveTimers := st.liveTimers - 1 }

/-- The `write` method of `createOtlpDestination` on one line of output:
`parsed` is the result of `JSON.parse` (`none` when parsing failed, in which
case the state is untouched).  A parsed entry is pushed; if the buffer has
reached `MAX_BATCH_SIZE` a flush starts immediately, otherwise a flush is
scheduled. -/
def destinationWrite (st : LoggerState) (parsed : Option LogEntry) : LoggerState :=
  match parsed with
  | none => st
  | some log =>
    let st1 := { st with logBuffer := st.logBuffer ++ [log], written := st.written ++ [log] }
    if MAX_BATCH_SIZE ≤ st1.logBuffer.length then flushLogsStart st1 else scheduleFlush st1

/-- The synchronous part of `flushPendingLogs`: cancel a pending timer, reset
`flushTimer` to null, then run `flushLogs` up to its first await. -/
def flushPendingLogsStart (st : LoggerState) : LoggerState :=
  flushLogsStart
    (if st.flushTimer.isSome then { st with flushTimer := none, liveTimers := st.liveTimers - 1 } else st)

/-- One atomic step of the logger: a destination write, the pending timer
firing, the response for an in-flight batch arriving (with success bit `ok`),
or a graceful-shutdown `flushPendingLogs` beginning. -/
inductive Step : LoggerState → LoggerState → Prop where
  | write (st : LoggerState) (parsed : Option LogEntry) : Step st (destinationWrite st parsed)
  | timer (st : LoggerState) (h : st.flushTimer.isSome) : Step st (timerFire st)
  | finish (st : LoggerState) (i : Nat) (ok : Bool) (h : i < st.inflight.length) :
      Step st (flushLogsEnd st i ok)
  | shutdown (st : LoggerState) : Step st (flushPendingLogsStart st)

/-- States reachable from the initial logger state. -/
inductive Reachable : LoggerState → Prop where
  | init : Reachable initState
  | step {s t : LoggerState} : Reachable s → Step s t → Reachable t

end Logger

namespace Failures

/-- The six failure scenarios of `SCENARIOS` in `src/routes/failures.ts`. -/
inductive Scenario where
  | timeout
  | rateLimit
  | contextOverflow
  | invalidResponse
  | hallucination
  | authFailure
deriving DecidableEq, Repr

/-- The `SCENARIOS` array, in source order. -/
def SCENARIOS : List Scenario :=
  [.timeout, .rateLimit, .contextOverflow, .invalidResponse, .hallucination, .authFailure]

/-- The wire name of each scenario. -/
def Scenario.wireName : Scenario → String
  | .timeout => "timeout"
  | .rateLimit => "rate-limit"
  | .contextOverflow => "context-overflow"
  | .invalidResponse => "invalid-response"
  | .hallucination => "hallucination"
  | .authFailure => "auth-failure"

/-- Interpret the request body's `scenario` string: `none` when the field is
missing, falsy, or not a member of `SCENARIOS` (the `!scenario ||
!SCENARIOS.includes(scenario)` test). -/
def parseScenario : Option String → Option Scenario
  | none => none
  | some s =>
    if s = "timeout" then some .timeout
    else if s = "rate-limit" then some .rateLimit
    else if s = "context-overflow" then some .contextOverflow
    else if s = "invalid-response" then some .invalidResponse
    else if s = "hallucination" then some .hallucination
    else if s = "auth-failure" then some .authFailure
    else none

/-- Choose the scenario the handler works with: the requested one when valid,
otherwise `SCENARIOS[Math.floor(Math.random() * SCENARIOS.length)]`, the random
index being modelled by `r`. -/
def pickScenario (raw : Option String) (r : Fin 6) : Scenario :=
  match parseScenario raw with
  | some s => s
  | none => SCENARIOS.get ⟨r.1, by simp [SCENARIOS]⟩

/-- Result of `simulateScenario`, restricted to the fields the HTTP response
is computed from. -/
structure ScenarioResult where
  success : Bool
  error : Option String := none
  warning : Option String := none
deriving DecidableEq, Repr

/-- `simulateScenario`:  dispatch to the per-scenario simulator.  `model` is
the request's model name; `parseErr` stands for the engine-supplied message of
the `JSON.parse` failure in `simulateInvalidResponse`. -/
def simulateScenario (scenario : Scenario) (model parseErr : String) : ScenarioResult :=
  match scenario with
  | .timeout =>
    { success := false,
      error := some ("Deadline exceeded: LLM response took >3000ms (model: " ++ model ++ ")") }
  | .rateLimit =>
    { success := false,
      error := some ("Rate limit exceeded: 429 Too Many Requests from provider (model: " ++ model ++ ")") }
  | .contextOverflow =>
    { success := false,
      error := some ("Context length exceeded: 32768 tokens > 8192 max for " ++ model) }
  | .invalidResponse =>
    { success := false,
      error := some ("Invalid LLM response: " ++ parseErr ++ " (model: " ++ model ++ ")") }
  | .hallucination =>
    { success := true,
      warning := some ("Low confidence response — possible hallucination") }
  | .authFailure =>
    { success := false,
      error := some ("Authentication failed: 401 Unauthorized — invalid or expired API key (model: " ++ model ++ ")") }

/-- JavaScript truthiness of an optional string (`undefined` and the empty
string are falsy). -/
def jsTruthy : Option String → Bool
  | none => false
  | some s => !s.isEmpty

/-- The HTTP response the `/failures` handler sends on its normal path:
`success: !result.error` and status
`result.error ? (auth-failure ? 401 : rate-limit ? 429 : 500) : 200`. -/
structure FailureResponse where
  success : Bool
  status : Nat
deriving DecidableEq, Repr

def failuresResponse (scenario : Scenario) (model parseErr : String) : FailureResponse :=
  let result := simulateScenario scenario model parseErr
  let hasErr := jsTruthy result.error
  { success := !hasErr,
    status :=
      if hasErr then
        if scenario = .authFailure then 401
        else if scenario = .rateLimit then 429
        else 500
      else 200 }

end Failures

namespace Llm

/-- `countTokens` in `src/routes/llm-mock.ts`: `Math.ceil(text.length / 4)`. -/
def countTokens (text : String) : Nat := (text.length + 3) / 4

/-- The `MOCK_RESPONSES` array. -/
def MOCK_RESPONSES : List String :=
  ["The answer to your question involves understanding the fundamental principles at play. Let me explain in detail...",
   "Based on my analysis, I can provide several insights that may help address your query. First, consider that...",
   "That\x27s an interesting question! The key factors to consider are the underlying patterns and their implications.",
   "I\x27d be happy to help with that. The most important aspect here is recognizing the relationship between...",
   "Great question! Let me break this down into manageable parts to give you a comprehensive answer."]

/-- The default prompt of the `/llm` handler. -/
def defaultPrompt : String := "Tell me something interesting"

/-- The usage block of the `/llm` handler's successful response. -/
structure LlmUsage where
  promptTokens : Nat
  completionTokens : Nat
  totalTokens : Nat
deriving DecidableEq, Repr

/-- The usage computation of the `/llm` handler: destructure the body with
defaults, pick a mock response (`pick` models `Math.floor(Math.random() *
MOCK_RESPONSES.length)`), count tokens, clamp completion tokens by
`maxTokens`, and sum. -/
def llmUsage (prompt : Option String) (maxTokens : Option Nat) (pick : Fin 5) : LlmUsage :=
  let p := prompt.getD defaultPrompt
  let m := maxTokens.getD 100
  let mockResponse := (MOCK_RESPONSES.get? pick.1).getD "I can help you with that question."
  let inputTokens := countTokens p
  let outputTokens := min (countTokens mockResponse) m
  { promptTokens := inputTokens,
    completionTokens := outputTokens,
    totalTokens := inputTokens + outputTokens }

end Llm

/-! Concrete sample data used to instantiate the theorems below. -/

/-- A sample parsed pino log entry. -/
def sampleLog1 : Logger.LogEntry :=
  { level := 30, time := 5, msg := some "hello", extra := [("route", .str "weather")] }

/-- A second, distinct sample log entry. -/
def sampleLog2 : Logger.LogEntry :=
  { level := 50, time := 6, msg := some "boom", extra := [] }

/-- A logger state whose buffer holds exactly one entry. -/
def oneLogState : Logger.LoggerState :=
  { Logger.initState with logBuffer := [sampleLog1] }

/-- A logger state with one in-flight batch and an empty buffer. -/
def inflightState : Logger.LoggerState :=
  { Logger.initState with inflight := [[sampleLog1]] }

/-- The ceiling of `l / 4`, as the claims word it. -/
def ceilDiv4 (l : Nat) : Nat := if l % 4 = 0 then l / 4 else l / 4 + 1

/-- The timer bookkeeping invariant of the logger: the number of scheduled,
unfired timeout handles is one exactly when the `flushTimer` variable is
non-null, and zero otherwise. -/
def TimerLinked (s : Logger.LoggerState) : Prop :=
  s.liveTimers = if s.flushTimer.isSome then 1 else 0

/-- The keys of the attributes produced from an object are its non-base keys,
in order. -/
theorem toOtlpAttributes_keys (l : List (String × Logger.JsValue)) :
    (Logger.toOtlpAttributes l).map (fun a => a.key)
      = (l.map Prod.fst).filter (fun k => k ∉ Logger.baseFields) := by
  induction l with
  | nil => rfl
  | cons kv tl ih =>
    by_cases hk : kv.1 ∈ Logger.baseFields
    · simpa [Logger.toOtlpAttributes, List.filter_cons, hk]
        using ih
    · simpa [Logger.toOtlpAttributes, List.filter_cons, hk]
        using ih

/-- C9: when the log buffer is empty, `flushLogs` returns immediately: no
request is issued (no batch becomes in-flight) and the whole logger state —
buffer, flush timer, and the rest — is unchanged. -/
theorem c9_flush_empty_noop (st : Logger.LoggerState) (h : st.logBuffer = []) (ok : Bool) :
    Logger.flushLogs st ok = st := by
  have hs : Logger.flushLogsStart st = st := by
    unfold Logger.flushLogsStart
    simp [h]
  unfold Logger.flushLogs
  rw [hs]
  unfold Logger.flushLogsEnd
  rw [List.get?_eq_none.mpr (le_refl st.inflight.length)]

/-- Witness for C9 at the initial state. -/
theorem c9_flush_empty_noop_witness : Logger.flushLogs Logger.initState true = Logger.initState :=
  c9_flush_empty_noop Logger.initState rfl true

/-- C1: when the response for an in-flight batch comes back as a failure, the
batch is unshifted back onto the front of the buffer, in its original order,
exactly when the buffer at that moment holds fewer than 500 entries; with 500
or more entries the batch is dropped and the buffer is left as it was; on a
successful response the batch is never re-inserted. -/
theorem c1_requeue_on_failure (st : Logger.LoggerState) (i : Nat) (batch : List Logger.LogEntry)
    (hb : st.inflight.get? i = some batch) (hne : batch ≠ []) :
    ((Logger.flushLogsEnd st i false).logBuffer = batch ++ st.logBuffer
        ↔ st.logBuffer.length < 500)
    ∧ (500 ≤ st.logBuffer.length → (Logger.flushLogsEnd st i false).logBuffer = st.logBuffer)
    ∧ (Logger.flushLogsEnd st i true).logBuffer = st.logBuffer := by
  have key : Logger.flushLogsEnd st i false
      = (if st.logBuffer.length < 500
         then { st with inflight := st.inflight.eraseIdx i, logBuffer := batch ++ st.logBuffer }
         else { st with inflight := st.inflight.eraseIdx i }) := by
    unfold Logger.flushLogsEnd
    rw [hb]
    by_cases hlt : st.logBuffer.length < 500 <;> simp [hlt]
  have keyT : Logger.flushLogsEnd st i true
      = { st with inflight := st.inflight.eraseIdx i, exported := st.exported ++ batch } := by
    unfold Logger.flushLogsEnd
    rw [hb]
    simp
  refine ⟨?_, ?_, ?_⟩
  · by_cases hlt : st.logBuffer.length < 500
    · rw [key, if_pos hlt]
      exact ⟨fun _ => hlt, fun _ => rfl⟩
    · rw [key, if_neg hlt]
      refine ⟨fun he => ?_, fun hc => absurd hc hlt⟩
      exfalso
      have hlen := congrArg List.length he
      simp at hlen
      exact hne hlen
  · intro hge
    rw [key, if_neg (by omega)]
  · rw [keyT]

/-- Witness for C1: a one-entry batch failing against an empty buffer is
re-queued at the front. -/
theorem c1_requeue_on_failure_witness :
    (Logger.flushLogsEnd inflightState 0 false).logBuffer = [sampleLog1] ++ [] :=
  (c1_requeue_on_failure inflightState 0 [sampleLog1] rfl (by decide)).1.mpr (by decide)

/-- C3 counterexample: flushing a buffer holding a single entry removes one
entry, not `MAX_BATCH_SIZE = 50` of them, so a flush does not always export a
fixed-size batch of exactly 50 entries. -/
theorem c3_counterexample :
    oneLogState.logBuffer ≠ []
    ∧ (Logger.flushLogsStart oneLogState).inflight = [[sampleLog1]]
    ∧ (Logger.flushLogsStart oneLogState).logBuffer = []
    ∧ ([sampleLog1] : List Logger.LogEntry).length ≠ Logger.MAX_BATCH_SIZE := by
  decide

/-- C3 amended: every flush of a non-empty buffer removes the first
`min MAX_BATCH_SIZE length` entries — at most 50 — from the front of the
buffer, exports them as one batch, and leaves the buffer equal to the original
buffer minus that front prefix. -/
theorem c3_flush_takes_front_batch (st : Logger.LoggerState) (h : st.logBuffer ≠ []) :
    (Logger.flushLogsStart st).inflight
      = st.inflight ++ [st.logBuffer.take Logger.MAX_BATCH_SIZE]
    ∧ (st.logBuffer.take Logger.MAX_BATCH_SIZE).length
      = min Logger.MAX_BATCH_SIZE st.logBuffer.length
    ∧ (Logger.flushLogsStart st).logBuffer = st.logBuffer.drop Logger.MAX_BATCH_SIZE := by
  have hz : ¬ st.logBuffer.length = 0 := fun hc => h (List.length_eq_zero.mp hc)
  unfold Logger.flushLogsStart
  rw [if_neg hz]
  exact ⟨rfl, List.length_take _ _, rfl⟩

/-- Witness for the amended C3 at a one-entry buffer. -/
theorem c3_flush_takes_front_batch_witness :
    (Logger.flushLogsStart oneLogState).inflight
      = oneLogState.inflight ++ [oneLogState.logBuffer.take Logger.MAX_BATCH_SIZE] :=
  (c3_flush_takes_front_batch oneLogState (by decide)).1

/-- C2: writing a line that parses as JSON appends the entry to the end of the
buffer; a flush is issued on the spot (one more batch goes in-flight) exactly
when the buffer length has reached `MAX_BATCH_SIZE = 50`; otherwise the buffer
keeps the pushed entry, no request is issued, and a flush timer with delay
`FLUSH_INTERVAL = 5000` ms is pending. -/
theorem c2_write_flush_on_size_or_timer (st : Logger.LoggerState) (log : Logger.LogEntry)
    (htimer : st.flushTimer = none ∨ st.flushTimer = some Logger.FLUSH_INTERVAL) :
    (Logger.destinationWrite st (some log)).written = st.written ++ [log]
    ∧ (Logger.MAX_BATCH_SIZE ≤ (st.logBuffer ++ [log]).length →
        (Logger.destinationWrite st (some log)).inflight
          = st.inflight ++ [(st.logBuffer ++ [log]).take Logger.MAX_BATCH_SIZE]
        ∧ (Logger.destinationWrite st (some log)).logBuffer
          = (st.logBuffer ++ [log]).drop Logger.MAX_BATCH_SIZE)
    ∧ ((st.logBuffer ++ [log]).length < Logger.MAX_BATCH_SIZE →
        (Logger.destinationWrite st (some log)).logBuffer = st.logBuffer ++ [log]
        ∧ (Logger.destinationWrite st (some log)).inflight = st.inflight
        ∧ (Logger.destinationWrite st (some log)).flushTimer = some Logger.FLUSH_INTERVAL)
    ∧ ((Logger.destinationWrite st (some log)).inflight ≠ st.inflight
        ↔ Logger.MAX_BATCH_SIZE ≤ (st.logBuffer ++ [log]).length)
    ∧ Logger.FLUSH_INTERVAL = 5000 ∧ Logger.MAX_BATCH_SIZE = 50 := by
  have hlen : (st.logBuffer ++ [log]).length = st.logBuffer.length + 1 := by simp
  by_cases hfull : Logger.MAX_BATCH_SIZE ≤ st.logBuffer.length + 1
  · have key : Logger.destinationWrite st (some log)
        = { st with
            logBuffer := (st.logBuffer ++ [log]).drop Logger.MAX_BATCH_SIZE,
            written := st.written ++ [log],
            inflight := st.inflight ++ [(st.logBuffer ++ [log]).take Logger.MAX_BATCH_SIZE] } := by
      unfold Logger.destinationWrite Logger.flushLogsStart
      simp [hfull]
    rw [key]
    refine ⟨rfl, fun _ => ⟨rfl, rfl⟩, fun hlt => absurd hfull (by omega), ?_, rfl, rfl⟩
    simp [hfull]
  · have key : Logger.destinationWrite st (some log)
        = Logger.scheduleFlush { st with logBuffer := st.logBuffer ++ [log], written := st.written ++ [log] } := by
      unfold Logger.destinationWrite
      simp [hfull]
    have hsched : Logger.scheduleFlush { st with logBuffer := st.logBuffer ++ [log], written := st.written ++ [log] }
        = { st with
            logBuffer := st.logBuffer ++ [log],
            written := st.written ++ [log],
            flushTimer := some Logger.FLUSH_INTERVAL,
            liveTimers := if st.flushTimer = none then st.liveTimers + 1 else st.liveTimers } := by
      unfold Logger.scheduleFlush
      rcases htimer with h0 | h5
      · simp [h0]
      · simp [h5]
    rw [key, hsched]
    refine ⟨rfl, fun hge => absurd (by omega) hfull, fun _ => ⟨rfl, rfl, rfl⟩, ?_, rfl, rfl⟩
    simp [hfull]

/-- Witness for C2: a first write to the empty logger buffers the entry and
leaves a 5000 ms flush timer pending. -/
theorem c2_write_flush_on_size_or_timer_witness :
    (Logger.destinationWrite Logger.initState (some sampleLog1)).logBuffer = [sampleLog1]
    ∧ (Logger.destinationWrite Logger.initState (some sampleLog1)).flushTimer
      = some Logger.FLUSH_INTERVAL := by
  have h := (c2_write_flush_on_size_or_timer Logger.initState sampleLog1 (Or.inl rfl)).2.2.1 (by decide)
  exact ⟨by simpa using h.1, h.2.2⟩

/-- C5: `toOtlpAttributes` keeps, in order, exactly the keys of the object that
are not among the pino base fields `level, time, pid, hostname, msg, name`, one
attribute per such entry; and the attribute value of a field is determined by
its type: strings to `stringValue`, integer numbers to `intValue` holding the
decimal string, non-integer numbers to `doubleValue`, booleans to `boolValue`,
and anything else to the `stringValue` of its string conversion. -/
theorem c5_attribute_mapping (obj : List (String × Logger.JsValue)) :
    ((Logger.toOtlpAttributes obj).map (fun a => a.key)
        = (obj.map Prod.fst).filter (fun k => k ∉ Logger.baseFields))
    ∧ (Logger.toOtlpAttributes obj).length
        = (obj.filter (fun kv => kv.1 ∉ Logger.baseFields)).length
    ∧ (∀ k v, (k, v) ∈ obj → k ∉ Logger.baseFields →
        ({ key := k, value := Logger.toOtlpValue v } : Logger.OtlpAttribute)
          ∈ Logger.toOtlpAttributes obj)
    ∧ (∀ a ∈ Logger.toOtlpAttributes obj, a.key ∉ Logger.baseFields)
    ∧ (∀ s, Logger.toOtlpValue (.str s) = { stringValue := some s })
    ∧ (∀ q : Rat, q.den = 1 →
        Logger.toOtlpValue (.num q) = { intValue := some (toString q.num) })
    ∧ (∀ q : Rat, q.den ≠ 1 → Logger.toOtlpValue (.num q) = { doubleValue := some q })
    ∧ (∀ b, Logger.toOtlpValue (.bool b) = { boolValue := some b })
    ∧ (∀ rep, Logger.toOtlpValue (.other rep) = { stringValue := some rep }) := by
  refine ⟨toOtlpAttributes_keys obj, ?_, ?_, ?_, fun s => rfl, ?_, ?_, fun b => rfl, fun rep => rfl⟩
  · unfold Logger.toOtlpAttributes
    rw [List.length_map]
  · intro k v hmem hk
    unfold Logger.toOtlpAttributes
    exact List.mem_map_of_mem _ (List.mem_filter.mpr ⟨hmem, by simpa using hk⟩)
  · intro a ha
    unfold Logger.toOtlpAttributes at ha
    rcases List.mem_map.mp ha with ⟨kv, hkv, hEq⟩
    have hkeep := (List.mem_filter.mp hkv).2
    rw [← hEq]
    simpa using hkeep
  · intro q hq
    simp [Logger.toOtlpValue, hq]
  · intro q hq
    simp [Logger.toOtlpValue, hq]

/-- Witness for C5 on a two-field object: the non-base key survives with its
typed value. -/
theorem c5_attribute_mapping_witness :
    ({ key := "route", value := Logger.toOtlpValue (.str "weather") } : Logger.OtlpAttribute)
      ∈ Logger.toOtlpAttributes [("level", .num 30), ("route", .str "weather")] :=
  (c5_attribute_mapping [("level", .num 30), ("route", .str "weather")]).2.2.1
    "route" (.str "weather") (by simp) (by decide)

/-- C10: the mock LLM usage block satisfies `promptTokens = ceil(len(prompt)/4)`
with the prompt defaulting to "Tell me something interesting",
`completionTokens = min(ceil(len(response)/4), maxTokens)` with `maxTokens`
defaulting to 100, and `totalTokens = promptTokens + completionTokens`. -/
theorem c10_llm_usage (prompt : Option String) (maxTokens : Option Nat) (pick : Fin 5) :
    (Llm.llmUsage prompt maxTokens pick).promptTokens
        = ceilDiv4 (prompt.getD Llm.defaultPrompt).length
    ∧ (Llm.llmUsage prompt maxTokens pick).completionTokens
        = min (ceilDiv4 (((Llm.MOCK_RESPONSES.get? pick.1).getD
              "I can help you with that question.").length))
            (maxTokens.getD 100)
    ∧ (Llm.llmUsage prompt maxTokens pick).totalTokens
        = (Llm.llmUsage prompt maxTokens pick).promptTokens
            + (Llm.llmUsage prompt maxTokens pick).completionTokens := by
  have hc : ∀ l : Nat, (l + 3) / 4 = ceilDiv4 l := by
    intro l
    unfold ceilDiv4
    by_cases h4 : l % 4 = 0 <;> simp [h4] <;> omega
  unfold Llm.llmUsage Llm.countTokens
  simp [hc]

/-- Appending to a non-empty string yields a non-empty string. -/
theorem append_ne_empty (p m : String) (hp : p ≠ "") : p ++ m ≠ "" := by
  intro h
  apply hp
  have hd : p.data ++ m.data = [] := by
    have hc := congrArg String.data h
    simpa [String.data_append] using hc
  rcases List.append_eq_nil.mp hd with ⟨h1, _⟩
  exact String.ext (by simpa using h1)

/-- `isEmpty` is false on a string different from `""`. -/
theorem isEmpty_false_of_ne (s : String) (h : s ≠ "") : s.isEmpty = false := by
  cases he : s.isEmpty
  · rfl
  · exact absurd ((String.isEmpty_iff s).mp (by rw [he])) h

/-- A present, non-empty error string is truthy. -/
theorem jsTruthy_some (s : String) (h : s ≠ "") :
    Failures.jsTruthy (some s) = true := by
  simp [Failures.jsTruthy, isEmpty_false_of_ne s h]

/-- The `error` field of every simulated scenario other than hallucination is a
truthy (non-empty) string, while hallucination carries no error. -/
theorem simulate_error_truthy (model parseErr : String) :
    Failures.jsTruthy (Failures.simulateScenario .timeout model parseErr).error = true
    ∧ Failures.jsTruthy (Failures.simulateScenario .rateLimit model parseErr).error = true
    ∧ Failures.jsTruthy (Failures.simulateScenario .contextOverflow model parseErr).error = true
    ∧ Failures.jsTruthy (Failures.simulateScenario .invalidResponse model parseErr).error = true
    ∧ Failures.jsTruthy (Failures.simulateScenario .authFailure model parseErr).error = true
    ∧ Failures.jsTruthy (Failures.simulateScenario .hallucination model parseErr).error = false := by
  refine ⟨?_, ?_, ?_, ?_, ?_, rfl⟩
  · exact jsTruthy_some _ (append_ne_empty _ _ (append_ne_empty _ _ (by decide)))
  · exact jsTruthy_some _ (append_ne_empty _ _ (append_ne_empty _ _ (by decide)))
  · exact jsTruthy_some _ (append_ne_empty _ _ (by decide))
  · exact jsTruthy_some _
      (append_ne_empty _ _ (append_ne_empty _ _ (append_ne_empty _ _ (append_ne_empty _ _ (by decide)))))
  · exact jsTruthy_some _ (append_ne_empty _ _ (append_ne_empty _ _ (by decide)))

/-- C8: the scenario the `/failures` handler works with is always one of the
six members of `SCENARIOS`: an absent or unrecognized scenario string is
replaced by the randomly indexed member, a recognized one is used as-is; the
response's `success` field is true exactly for the hallucination scenario, and
the HTTP status is 200 for hallucination, 401 for auth-failure, 429 for
rate-limit, and 500 for every other scenario. -/
theorem c8_failures_route (raw : Option String) (r : Fin 6) (model parseErr : String) :
    Failures.pickScenario raw r ∈ Failures.SCENARIOS
    ∧ (Failures.parseScenario raw = none →
        Failures.pickScenario raw r = Failures.SCENARIOS.get ⟨r.1, by simp [Failures.SCENARIOS]⟩)
    ∧ (∀ s, Failures.parseScenario raw = some s → Failures.pickScenario raw r = s)
    ∧ ((Failures.failuresResponse (Failures.pickScenario raw r) model parseErr).success = true
        ↔ Failures.pickScenario raw r = .hallucination)
    ∧ (Failures.failuresResponse (Failures.pickScenario raw r) model parseErr).status
        = (match Failures.pickScenario raw r with
           | .hallucination => 200
           | .authFailure => 401
           | .rateLimit => 429
           | _ => 500) := by
  have htr := simulate_error_truthy model parseErr
  refine ⟨?_, ?_, ?_, ?_, ?_⟩
  · have hall : ∀ s : Failures.Scenario, s ∈ Failures.SCENARIOS := by
      intro s
      cases s <;> decide
    exact hall _
  · intro hnone
    unfold Failures.pickScenario
    rw [hnone]
  · intro s hs
    unfold Failures.pickScenario
    rw [hs]
  · cases hpk : Failures.pickScenario raw r
    · simp [Failures.failuresResponse, htr.1]
    · simp [Failures.failuresResponse, htr.2.1]
    · simp [Failures.failuresResponse, htr.2.2.1]
    · simp [Failures.failuresResponse, htr.2.2.2.1]
    · simp [Failures.failuresResponse, htr.2.2.2.2.2]
    · simp [Failures.failuresResponse, htr.2.2.2.2.1]
  · cases hpk : Failures.pickScenario raw r
    · simp [Failures.failuresResponse, htr.1]
    · simp [Failures.failuresResponse, htr.2.1]
    · simp [Failures.failuresResponse, htr.2.2.1]
    · simp [Failures.failuresResponse, htr.2.2.2.1]
    · simp [Failures.failuresResponse, htr.2.2.2.2.2]
    · simp [Failures.failuresResponse, htr.2.2.2.2.1]

/-- Witness for C8: with no scenario in the body and random index 0, the
timeout scenario is used. -/
theorem c8_failures_route_witness :
    Failures.pickScenario none ⟨0, by omega⟩ = Failures.Scenario.timeout := by
  have h := (c8_failures_route none ⟨0, by omega⟩ "gpt-4-mock" "x").2.1 rfl
  simpa [Failures.SCENARIOS] using h

/-- C4: the OTLP payload has exactly one `resourceLogs` element, whose resource
attributes are the configured service name and version "0.1.0", holding exactly
one `scopeLogs` element with scope `pino`/`9.6.0`, whose `logRecords` has one
record per buffered log; record `i` carries the decimal string of
`logs[i].time * 1,000,000` as `timeUnixNano`, the severity pair given by
`levelToSeverity logs[i].level`, and as body the message string or `""` when it
is absent or empty. -/
theorem c4_format_otlp_payload (sn : String) (nowMs : Nat) (logs : List Logger.LogEntry)
    (i : Nat) (hi : i < logs.length) :
    (Logger.formatOtlpPayload sn nowMs logs).resourceLogs.length = 1
    ∧ (∀ rl ∈ (Logger.formatOtlpPayload sn nowMs logs).resourceLogs,
        rl.resource.attributes
          = [{ key := "service.name", value := { stringValue := some sn } },
             { key := "service.version", value := { stringValue := some "0.1.0" } }]
        ∧ rl.scopeLogs.length = 1
        ∧ ∀ sl ∈ rl.scopeLogs,
            sl.scope = { name := "pino", version := "9.6.0" }
            ∧ sl.logRecords.length = logs.length
            ∧ sl.logRecords.get? i
              = some (Logger.logRecordOf (nowMs * 1000000) (logs.get ⟨i, hi⟩)))
    ∧ (Logger.logRecordOf (nowMs * 1000000) (logs.get ⟨i, hi⟩)).timeUnixNano
        = toString ((logs.get ⟨i, hi⟩).time * 1000000)
    ∧ (Logger.logRecordOf (nowMs * 1000000) (logs.get ⟨i, hi⟩)).severityNumber
        = (Logger.levelToSeverity (logs.get ⟨i, hi⟩).level).1
    ∧ (Logger.logRecordOf (nowMs * 1000000) (logs.get ⟨i, hi⟩)).severityText
        = (Logger.levelToSeverity (logs.get ⟨i, hi⟩).level).2
    ∧ (Logger.logRecordOf (nowMs * 1000000) (logs.get ⟨i, hi⟩)).body
        = { stringValue := some ((logs.get ⟨i, hi⟩).msg.getD "") } := by
  refine ⟨rfl, ?_, rfl, rfl, rfl, rfl⟩
  intro rl hrl
  simp only [Logger.formatOtlpPayload, List.mem_singleton] at hrl
  subst hrl
  refine ⟨rfl, rfl, ?_⟩
  intro sl hsl
  simp only [List.mem_singleton] at hsl
  subst hsl
  refine ⟨rfl, by simp, ?_⟩
  simp [List.get?_eq_getElem?, List.getElem?_map, List.getElem?_eq_getElem hi]

/-- Witness for C4 on a one-entry log list. -/
theorem c4_format_otlp_payload_witness :
    (Logger.formatOtlpPayload "svc" 7 [sampleLog1]).resourceLogs.length = 1
    ∧ (Logger.logRecordOf (7 * 1000000) sampleLog1).timeUnixNano
        = toString (sampleLog1.time * 1000000) := by
  have h := c4_format_otlp_payload "svc" 7 [sampleLog1] 0 (by decide)
  exact ⟨h.1, h.2.2.1⟩

/-- `flushLogsStart` never touches the timer bookkeeping. -/
theorem flushLogsStart_timer_frame (s : Logger.LoggerState) :
    (Logger.flushLogsStart s).flushTimer = s.flushTimer
    ∧ (Logger.flushLogsStart s).liveTimers = s.liveTimers := by
  unfold Logger.flushLogsStart
  split <;> exact ⟨rfl, rfl⟩

/-- `flushLogsEnd` never touches the timer bookkeeping. -/
theorem flushLogsEnd_timer_frame (s : Logger.LoggerState) (i : Nat) (ok : Bool) :
    (Logger.flushLogsEnd s i ok).flushTimer = s.flushTimer
    ∧ (Logger.flushLogsEnd s i ok).liveTimers = s.liveTimers := by
  unfold Logger.flushLogsEnd
  rcases hg : s.inflight.get? i with _ | batch
  · exact ⟨rfl, rfl⟩
  · by_cases hok : ok = true
    · simp [hok]
    · by_cases hlt : s.logBuffer.length < 500 <;> simp [hok, hlt]

/-- Transport of the timer invariant along operations that leave both timer
fields unchanged. -/
theorem timer_frame_linked (s t : Logger.LoggerState)
    (hft : t.flushTimer = s.flushTimer) (hlt : t.liveTimers = s.liveTimers)
    (h : TimerLinked s) : TimerLinked t := by
  unfold TimerLinked at *
  rw [hft, hlt, h]

/-- `scheduleFlush` preserves the timer invariant. -/
theorem scheduleFlush_linked (s : Logger.LoggerState) (h : TimerLinked s) :
    TimerLinked (Logger.scheduleFlush s) := by
  unfold Logger.scheduleFlush
  by_cases h0 : s.flushTimer = none
  · rw [if_pos h0]
    unfold TimerLinked at h ⊢
    simp [h0] at h
    simp [h]
  · rw [if_neg h0]
    exact h

/-- A destination write preserves the timer invariant. -/
theorem destinationWrite_linked (s : Logger.LoggerState) (parsed : Option Logger.LogEntry)
    (h : TimerLinked s) : TimerLinked (Logger.destinationWrite s parsed) := by
  cases parsed with
  | none => exact h
  | some log =>
    have h1 : TimerLinked
        { s with logBuffer := s.logBuffer ++ [log], written := s.written ++ [log] } := h
    show TimerLinked
      (if Logger.MAX_BATCH_SIZE
            ≤ ({ s with logBuffer := s.logBuffer ++ [log], written := s.written ++ [log] }
                : Logger.LoggerState).logBuffer.length
       then Logger.flushLogsStart
              { s with logBuffer := s.logBuffer ++ [log], written := s.written ++ [log] }
       else Logger.scheduleFlush
              { s with logBuffer := s.logBuffer ++ [log], written := s.written ++ [log] })
    split
    · exact timer_frame_linked _ _ (flushLogsStart_timer_frame _).1
        (flushLogsStart_timer_frame _).2 h1
    · exact scheduleFlush_linked _ h1

/-- The timer callback preserves the timer invariant. -/
theorem timerFire_linked (s : Logger.LoggerState) (hsome : s.flushTimer.isSome)
    (h : TimerLinked s) : TimerLinked (Logger.timerFire s) := by
  unfold Logger.timerFire
  have hf := flushLogsStart_timer_frame { s with flushTimer := none, liveTimers := s.liveTimers - 1 }
  apply timer_frame_linked _ _ hf.1 hf.2
  unfold TimerLinked at h ⊢
  simp [hsome] at h
  simp [h]

/-- `flushPendingLogs` (its synchronous part) preserves the timer invariant. -/
theorem flushPendingLogsStart_linked (s : Logger.LoggerState) (h : TimerLinked s) :
    TimerLinked (Logger.flushPendingLogsStart s) := by
  unfold Logger.flushPendingLogsStart
  by_cases hsome : s.flushTimer.isSome = true
  · rw [if_pos hsome]
    have hf := flushLogsStart_timer_frame { s with flushTimer := none, liveTimers := s.liveTimers - 1 }
    apply timer_frame_linked _ _ hf.1 hf.2
    unfold TimerLinked at h ⊢
    simp [hsome] at h
    simp [h]
  · rw [if_neg hsome]
    have hf := flushLogsStart_timer_frame s
    exact timer_frame_linked _ _ hf.1 hf.2 h

/-- C6: in every reachable logger state at most one flush timer is scheduled:
`scheduleFlush` only creates a timer when `flushTimer` is null, the callback
nulls it when firing, and shutdown cancels it, so the number of live timeout
handles never exceeds one. -/
theorem c6_at_most_one_timer (st : Logger.LoggerState) (h : Logger.Reachable st) :
    st.liveTimers ≤ 1 := by
  have inv : TimerLinked st := by
    induction h with
    | init => rfl
    | step hr stp ih =>
      cases stp with
      | write parsed => exact destinationWrite_linked _ parsed ih
      | timer hsome => exact timerFire_linked _ hsome ih
      | finish i ok hi =>
        exact timer_frame_linked _ _ (flushLogsEnd_timer_frame _ i ok).1
          (flushLogsEnd_timer_frame _ i ok).2 ih
      | shutdown => exact flushPendingLogsStart_linked _ ih
  unfold TimerLinked at inv
  rw [inv]
  split <;> omega

/-- Witness for C6 at the initial state. -/
theorem c6_at_most_one_timer_witness : Logger.initState.liveTimers ≤ 1 :=
  c6_at_most_one_timer Logger.initState Logger.Reachable.init

/-- C7: the buffer gives no ordering guarantee: there is a reachable logger
state — two writes, each flushed by its timer, whose requests complete out of
order — in which the endpoint received the logs in an order different from the
order they were written in. -/
theorem c7_export_reordering :
    ∃ st : Logger.LoggerState, Logger.Reachable st
      ∧ st.written = [sampleLog1, sampleLog2]
      ∧ st.exported = [sampleLog2, sampleLog1]
      ∧ st.exported ≠ st.written := by
  refine ⟨Logger.flushLogsEnd
      (Logger.flushLogsEnd
        (Logger.timerFire
          (Logger.destinationWrite
            (Logger.timerFire (Logger.destinationWrite Logger.initState (some sampleLog1)))
            (some sampleLog2)))
        1 true)
      0 true, ?_, by decide, by decide, by decide⟩
  exact Logger.Reachable.step
    (Logger.Reachable.step
      (Logger.Reachable.step
        (Logger.Reachable.step
          (Logger.Reachable.step
            (Logger.Reachable.step Logger.Reachable.init (Logger.Step.write _ _))
            (Logger.Step.timer _ (by decide)))
          (Logger.Step.write _ _))
        (Logger.Step.timer _ (by decide)))
      (Logger.Step.finish _ 1 true (by decide)))
    (Logger.Step.finish _ 0 true (by decide))
